import Mathlib

/-!
Verification of the TMDB protocol server (src/index.ts).

Shallow embedding notes:
* JS numbers that the handlers only ever interpolate into strings or pass
  through verbatim (`vote_average`, review `rating`) are modelled by their
  decimal renderings (`String`), since nothing in the code observes them
  otherwise.  Page counters (`page`, `total_pages`), which the code compares
  and increments, are integral in the upstream data and are modelled as `Nat`.
* `release_date` is declared `string` in the `Movie` interface, but the
  handlers treat it as possibly absent at runtime (the tool formatters use
  optional chaining `release_date?.split`, the listing handler does not), so
  it is modelled as `Option String`.
* The `fetchFromTMDB` network call is the Data Provider Gateway; handlers are
  parameterized over it as a function from (endpoint, query params) to an
  `Except` value, the error carrying the thrown message
  ("TMDB API error: <statusText>").  The injected api_key parameter is outside
  the model (the spec excludes the credential from `params`).
* JS exception control flow is modelled with `Except`; the JSON serialization
  `JSON.stringify(movieInfo)` is external, so a read-resource content item
  carries the structured document itself.
-/

/-- One genre object from the upstream payload. -/
structure Genre where
  id : Nat
  name : String
deriving DecidableEq

/-- Movie record of an upstream listing (interface `Movie`, src/index.ts:17).
`release_date` is possibly absent at runtime, see the header note. -/
structure Movie where
  id : Nat
  title : String
  release_date : Option String
  vote_average : String
  overview : String
  poster_path : Option String
  genres : Option (List Genre)
deriving DecidableEq

/-- Paged listing payload (interface `TMDBResponse`, src/index.ts:27). -/
structure TMDBResponse where
  page : Nat
  results : List Movie
  total_pages : Nat
deriving DecidableEq

/-- Cast member inside `credits` (src/index.ts:35). -/
structure CastMember where
  name : String
  character : String
deriving DecidableEq

/-- Crew member inside `credits` (src/index.ts:39). -/
structure CrewMember where
  name : String
  job : String
deriving DecidableEq

/-- The `credits` sub-object of a detailed record (src/index.ts:34). -/
structure Credits where
  cast : List CastMember
  crew : List CrewMember
deriving DecidableEq

/-- One upstream review (src/index.ts:45). -/
structure Review where
  author : String
  content : String
  rating : Option String
deriving DecidableEq

/-- The `reviews` sub-object of a detailed record (src/index.ts:44). -/
structure ReviewPage where
  results : List Review
deriving DecidableEq

/-- Detailed movie record (interface `MovieDetails`, src/index.ts:33),
flattening the `extends Movie` inheritance. -/
structure MovieDetails where
  id : Nat
  title : String
  release_date : Option String
  vote_average : String
  overview : String
  poster_path : Option String
  genres : Option (List Genre)
  credits : Option Credits
  reviews : Option ReviewPage
deriving DecidableEq

/-- A resource descriptor of a listing response (src/index.ts:96). -/
structure Resource where
  uri : String
  mimeType : String
  name : String
deriving DecidableEq

/-- The list-resources response shape (src/index.ts:95). `nextCursor` is
`none` where the code leaves the field `undefined`. -/
structure ListResult where
  resources : List Resource
  nextCursor : Option String
deriving DecidableEq

/-- One reduced review of the read-resource document (src/index.ts:120). -/
structure ReviewOut where
  author : String
  content : String
  rating : Option String
deriving DecidableEq

/-- The `movieInfo` document built by the read-resource handler
(src/index.ts:109).  `Option` fields are `undefined`-able in the source and
dropped by `JSON.stringify` when absent. -/
structure MovieInfo where
  title : String
  releaseDate : Option String
  rating : String
  overview : String
  genres : Option String
  posterUrl : String
  cast : Option (List String)
  director : Option String
  reviews : Option (List ReviewOut)
deriving DecidableEq

/-- One content item of a read-resource response (src/index.ts:129); `text`
holds the document whose JSON serialization the source returns. -/
structure ContentItem where
  uri : String
  mimeType : String
  text : MovieInfo
deriving DecidableEq

/-- The read-resource response shape (src/index.ts:127). -/
structure ReadResult where
  contents : List ContentItem
deriving DecidableEq

/-- One content block of a tool response (src/index.ts:204). -/
structure TextContent where
  type : String
  text : String
deriving DecidableEq

/-- The call-tool response envelope (src/index.ts:203): content blocks plus
the error flag. -/
structure ToolResponse where
  content : List TextContent
  isError : Bool
deriving DecidableEq

/-- The arguments bag of a call-tool request, reduced to the three fields the
handler reads (src/index.ts:192,215,239). -/
structure ToolArgs where
  query : String
  movieId : String
  timeWindow : String
deriving DecidableEq

/-- The Data Provider Gateway decoding a paged listing: `fetchFromTMDB` at
type `TMDBResponse` (src/index.ts:70).  The error message is the thrown
`TMDB API error: <statusText>` text. -/
abbrev Gateway := String → List (String × String) → Except String TMDBResponse

/-- The Data Provider Gateway decoding a detailed record: `fetchFromTMDB` at
type `MovieDetails` (src/index.ts:70). -/
abbrev DetailGateway := String → List (String × String) → Except String MovieDetails

/-- JS `a || b` for a possibly-undefined string `a`: the default is used both
when `a` is undefined and when it is the (falsy) empty string
(src/index.ts:90 `request.params?.cursor || "1"`). -/
def jsOr (o : Option String) (dflt : String) : String :=
  match o with
  | none => dflt
  | some s => if s = "" then dflt else s

/-- Characters of `s` before the first dash. -/
def beforeDash : List Char → List Char
  | [] => []
  | c :: cs => if c == '-' then [] else c :: beforeDash cs

/-- JS `s.split("-")[0]`: the part of `s` before the first dash (JS `split`
always returns a nonempty array, so index 0 exists; on `""` it is `""`,
and it is all of `s` when no dash occurs). -/
def jsSplitHead (s : String) : String :=
  String.mk (beforeDash s.data)

/-- Rendering of the template expression `${m.release_date?.split("-")[0]}`
(src/index.ts:197): JS interpolates `undefined` as the text "undefined". -/
def renderOptYear : Option String → String
  | none => "undefined"
  | some d => jsSplitHead d

/-- Whether `pat` occurs at the head of `s` (character lists). -/
def listStarts : List Char → List Char → Bool
  | [], _ => true
  | _ :: _, [] => false
  | p :: ps, c :: cs => p == c && listStarts ps cs

/-- JS `String.prototype.replace(pat, "")` with a plain-string pattern:
removes the first occurrence of `pat`, leaves the string unchanged when `pat`
does not occur (src/index.ts:106). -/
def replaceFirst : List Char → List Char → List Char
  | [], _ => []
  | c :: cs, pat =>
    if listStarts pat (c :: cs) then List.drop pat.length (c :: cs)
    else c :: replaceFirst cs pat

/-- The movie id the read-resource handler derives from a request uri:
`uri.replace("tmdb:///movie/", "")` (src/index.ts:106).  Note: no validation
that the uri actually starts with the scheme. -/
def extractMovieId (uri : String) : String :=
  String.mk (replaceFirst uri.data "tmdb:///movie/".data)

/-- JS `Array.prototype.map` under exception propagation: the first element
on which `f` throws aborts the whole map with that error. -/
def mapE {α β : Type} (f : α → Except String β) : List α → Except String (List β)
  | [] => Except.ok []
  | x :: xs =>
    match f x with
    | Except.error e => Except.error e
    | Except.ok y =>
      match mapE f xs with
      | Except.error e => Except.error e
      | Except.ok ys => Except.ok (y :: ys)

/-- The `name` projection inside the list-resources handler
(src/index.ts:99): unguarded access `movie.release_date.split("-")[0]`, which
throws a TypeError when `release_date` is absent at runtime. -/
def listName (m : Movie) : Except String String :=
  match m.release_date with
  | none => Except.error "Cannot read properties of undefined (reading 'split')"
  | some rd => Except.ok (m.title ++ " (" ++ jsSplitHead rd ++ ")")

/-- One resource descriptor of the listing map (src/index.ts:96). -/
def listItem (m : Movie) : Except String Resource :=
  match listName m with
  | Except.error e => Except.error e
  | Except.ok nm =>
    Except.ok { uri := "tmdb:///movie/" ++ Nat.repr m.id,
                mimeType := "application/json", name := nm }

/-- The list-resources handler (src/index.ts:88): fetch the "popular" page
selected by the cursor (default "1"), project descriptors, compute the next
cursor.  Errors are not caught here and propagate (spec section 7). -/
def listResources (cursor : Option String) (gw : Gateway) : Except String ListResult :=
  match gw "/movie/popular" [("page", jsOr cursor "1")] with
  | Except.error e => Except.error e
  | Except.ok data =>
    match mapE listItem data.results with
    | Except.error e => Except.error e
    | Except.ok rs =>
      Except.ok { resources := rs,
                  nextCursor := if data.page < data.total_pages
                    then some (Nat.repr (data.page + 1)) else none }

/-- `getMovieDetails` (src/index.ts:84): one Gateway call with the expanded
projection parameter. -/
def getMovieDetails (movieId : String) (gwd : DetailGateway) : Except String MovieDetails :=
  gwd ("/movie/" ++ movieId) [("append_to_response", "credits,reviews")]

/-- The `movieInfo` projection of the read-resource handler
(src/index.ts:109-125), field by field.  The posterUrl branch is the JS
truthiness ternary `movie.poster_path ? ... : "No poster available"`
(src/index.ts:115): a missing and an empty poster_path are both falsy and
both yield the sentinel. -/
def movieInfo (movie : MovieDetails) : MovieInfo :=
  { title := movie.title,
    releaseDate := movie.release_date,
    rating := movie.vote_average,
    overview := movie.overview,
    genres := movie.genres.map (fun gs => String.intercalate ", " (gs.map Genre.name)),
    posterUrl := match movie.poster_path with
      | some p => if p = "" then "No poster available"
          else "https://image.tmdb.org/t/p/w500" ++ p
      | none => "No poster available",
    cast := movie.credits.map (fun c =>
      (c.cast.take 5).map (fun actor => actor.name ++ " as " ++ actor.character)),
    director := movie.credits.bind (fun c =>
      (c.crew.find? (fun person => person.job == "Director")).map CrewMember.name),
    reviews := movie.reviews.map (fun r =>
      (r.results.take 3).map (fun review =>
        { author := review.author, content := review.content, rating := review.rating })) }

/-- The read-resource handler (src/index.ts:105): strip the uri (without
validation), fetch the detail, wrap the projected document.  Errors are not
caught here and propagate (spec section 7). -/
def readResource (uri : String) (gwd : DetailGateway) : Except String ReadResult :=
  match getMovieDetails (extractMovieId uri) gwd with
  | Except.error e => Except.error e
  | Except.ok movie =>
    Except.ok { contents := [{ uri := uri, mimeType := "application/json",
                               text := movieInfo movie }] }

/-- The per-movie entry of the search_movies formatter (src/index.ts:196),
with the ID line. -/
def fmtWithId (m : Movie) : String :=
  m.title ++ " (" ++ renderOptYear m.release_date ++ ") - ID: " ++ Nat.repr m.id ++ "\n"
    ++ "Rating: " ++ m.vote_average ++ "/10\n"
    ++ "Overview: " ++ m.overview ++ "\n"

/-- The per-movie entry of the get_recommendations / get_trending formatters
(src/index.ts:220,244): same shape without the ID segment. -/
def fmtNoId (m : Movie) : String :=
  m.title ++ " (" ++ renderOptYear m.release_date ++ ")\n"
    ++ "Rating: " ++ m.vote_average ++ "/10\n"
    ++ "Overview: " ++ m.overview ++ "\n"

/-- The body of the call-tool handler, before the surrounding try/catch
(src/index.ts:190-264): a switch on the tool name (sequential string
comparisons), each branch one Gateway call plus formatting; the default
branch throws "Tool not found". -/
def callToolBody (name : String) (args : ToolArgs) (gw : Gateway) : Except String ToolResponse :=
  if name = "search_movies" then
    match gw "/search/movie" [("query", args.query)] with
    | Except.error e => Except.error e
    | Except.ok data =>
      let txt := "Found " ++ Nat.repr data.results.length ++ " movies:\n\n"
        ++ String.intercalate "\n---\n" (data.results.map fmtWithId)
      Except.ok { content := [{ type := "text", text := txt }], isError := false }
  else if name = "get_recommendations" then
    match gw ("/movie/" ++ args.movieId ++ "/recommendations") [] with
    | Except.error e => Except.error e
    | Except.ok data =>
      let txt := "Top 5 recommendations:\n\n"
        ++ String.intercalate "\n---\n" ((data.results.take 5).map fmtNoId)
      Except.ok { content := [{ type := "text", text := txt }], isError := false }
  else if name = "get_trending" then
    match gw ("/trending/movie/" ++ args.timeWindow) [] with
    | Except.error e => Except.error e
    | Except.ok data =>
      let txt := "Trending movies for the " ++ args.timeWindow ++ ":\n\n"
        ++ String.intercalate "\n---\n" ((data.results.take 10).map fmtNoId)
      Except.ok { content := [{ type := "text", text := txt }], isError := false }
  else Except.error "Tool not found"

/-- The call-tool handler (src/index.ts:188-276): the try/catch boundary.
Every failure of the body is converted to a normally-returned envelope with
`isError: true` and text "Error: <message>"; the handler is total — by its
type it can never propagate a thrown error. -/
def callTool (name : String) (args : ToolArgs) (gw : Gateway) : ToolResponse :=
  match callToolBody name args gw with
  | Except.ok r => r
  | Except.error e =>
    { content := [{ type := "text", text := "Error: " ++ e }], isError := true }

/-- An event written to an open /sse response stream.  The initial event is
`{type:"connected", client: id}` (src/index.ts:305); a keep-alive would be
`{type:"ping"}`. -/
inductive SSEEvent where
  | connected (client : Nat)
  | ping
deriving DecidableEq

/-- A recurring timer registered by a request handler, firing `event` every
`periodMs` milliseconds while the session is open. -/
structure SSETimer where
  periodMs : Nat
  event : SSEEvent
deriving DecidableEq

/-- The observable setup a /sse request handler performs for one session:
the events it writes synchronously at open, and the recurring timers it
registers for the lifetime of the session. -/
structure SSESession where
  initialEvents : List SSEEvent
  timers : List SSETimer
deriving DecidableEq

/-- The /sse handler (src/index.ts:293-366) for client `id`: it writes the
single `{type:"connected", client: id}` event (line 305) and registers no
recurring timer whatsoever — no `setInterval` or similar appears anywhere in
the handler (or the file), so `timers` is empty. -/
def sseHandler (id : Nat) : SSESession :=
  { initialEvents := [SSEEvent.connected id], timers := [] }

/-- All events emitted on a session's channel if it stays open for `openMs`
milliseconds: the synchronous initial events plus every timer firing
`openMs / period` times. -/
def sseEmitted (s : SSESession) (openMs : Nat) : List SSEEvent :=
  s.initialEvents ++ s.timers.flatMap (fun t => List.replicate (openMs / t.periodMs) t.event)

/-- Fixture: empty argument bag. -/
def noArgs : ToolArgs := { query := "", movieId := "", timeWindow := "" }

/-- Fixture: a Gateway whose outbound call fails, as when the upstream
response status is not ok (src/index.ts:78). -/
def gwFail : Gateway := fun _ _ => Except.error "TMDB API error: Service Unavailable"

/-- Fixture: listing data for the cursor-invariant witness, page 1 of 3. -/
def dataC2 : TMDBResponse := { page := 1, results := [], total_pages := 3 }

/-- Fixture: a Gateway returning `dataC2` on every call. -/
def gwC2 : Gateway := fun _ _ => Except.ok dataC2

/-- Fixture: movie "A" of the spec's formatting fixture. -/
def movieA : Movie :=
  { id := 1, title := "A", release_date := some "2020-01-01", vote_average := "7.5",
    overview := "o1", poster_path := none, genres := none }

/-- Fixture: movie "B" of the spec's formatting fixture. -/
def movieB : Movie :=
  { id := 2, title := "B", release_date := some "2021-05-05", vote_average := "6",
    overview := "o2", poster_path := none, genres := none }

/-- Fixture: the spec's fixed 2-item provider listing. -/
def dataC7 : TMDBResponse := { page := 1, results := [movieA, movieB], total_pages := 1 }

/-- Fixture: a Gateway returning the 2-item listing on every call. -/
def gwC7 : Gateway := fun _ _ => Except.ok dataC7

/-- Fixture: the i-th synthetic movie of the truncation witness. -/
def mkMovie (i : Nat) : Movie :=
  { id := i, title := "M" ++ Nat.repr i, release_date := some "2020-01-01",
    vote_average := "7", overview := "o", poster_path := none, genres := none }

/-- Fixture: a 6-item listing, exercising the take-5 truncation. -/
def dataC8 : TMDBResponse := { page := 1, results := (List.range 6).map mkMovie, total_pages := 1 }

/-- Fixture: a Gateway returning the 6-item listing on every call. -/
def gwC8 : Gateway := fun _ _ => Except.ok dataC8

/-- Fixture: tool arguments for the truncation witness. -/
def argsC8 : ToolArgs := { query := "", movieId := "7", timeWindow := "week" }

/-- Fixture: a rich detailed record exercising every branch of the
read-resource projection (6 cast members, Director as second crew entry,
4 reviews). -/
def detC9 : MovieDetails :=
  { id := 42, title := "A", release_date := some "2020-01-01", vote_average := "7.5",
    overview := "o1", poster_path := some "/p.jpg",
    genres := some [{ id := 18, name := "Drama" }, { id := 35, name := "Comedy" }],
    credits := some
      { cast := [{ name := "c1", character := "r1" }, { name := "c2", character := "r2" },
                 { name := "c3", character := "r3" }, { name := "c4", character := "r4" },
                 { name := "c5", character := "r5" }, { name := "c6", character := "r6" }],
        crew := [{ name := "w1", job := "Producer" }, { name := "w2", job := "Director" },
                 { name := "w3", job := "Director" }] },
    reviews := some
      { results := [{ author := "a1", content := "t1", rating := some "8" },
                    { author := "a2", content := "t2", rating := none },
                    { author := "a3", content := "t3", rating := some "6" },
                    { author := "a4", content := "t4", rating := some "5" }] } }

/-- Fixture: a detail Gateway serving `detC9` for movie id 42 only. -/
def gwC9 : DetailGateway := fun path _ =>
  if path = "/movie/42" then Except.ok detC9 else Except.error "TMDB API error: Not Found"

/-- Fixture: a detail record whose poster_path is present but empty — a
JS-falsy value the truthiness ternary sends to the sentinel branch. -/
def detC9e : MovieDetails :=
  { id := 77, title := "E", release_date := some "2011-07-07", vote_average := "5.5",
    overview := "oe", poster_path := some "", genres := none, credits := none,
    reviews := none }

/-- Fixture: a detail Gateway serving `detC9e` for movie id 77 only. -/
def gwC9e : DetailGateway := fun path _ =>
  if path = "/movie/77" then Except.ok detC9e else Except.error "TMDB API error: Not Found"

/-- Fixture: a detail record for the prefix-stripping defect: the upstream
record reached by forwarding the raw uri "12345" as an id. -/
def detC3 : MovieDetails :=
  { id := 12345, title := "G", release_date := some "1999-03-31", vote_average := "6.1",
    overview := "og", poster_path := none, genres := none, credits := none, reviews := none }

/-- Fixture: a detail Gateway that answers only the forwarded garbage id. -/
def gwC3 : DetailGateway := fun path _ =>
  if path = "/movie/12345" then Except.ok detC3 else Except.error "TMDB API error: Not Found"

/-- Fixture: the listing movie of the round-trip witness. -/
def movieC4 : Movie :=
  { id := 42, title := "A", release_date := some "2020-01-01", vote_average := "7.5",
    overview := "o1", poster_path := none, genres := none }

/-- Fixture: a one-movie popular page for the round-trip witness. -/
def dataC4 : TMDBResponse := { page := 1, results := [movieC4], total_pages := 1 }

/-- Fixture: the listing Gateway of the round-trip witness. -/
def gwLC4 : Gateway := fun _ _ => Except.ok dataC4

/-- Fixture: the computed listing of the round-trip witness. -/
def resC4 : ListResult :=
  { resources := [{ uri := "tmdb:///movie/42", mimeType := "application/json",
                    name := "A (2020)" }],
    nextCursor := none }

/-- Fixture: a movie lacking a release_date at runtime. -/
def movieNoDate : Movie :=
  { id := 9, title := "N", release_date := none, vote_average := "5",
    overview := "on", poster_path := none, genres := none }

/-- Fixture: a listing containing a movie without release_date. -/
def dataC10 : TMDBResponse := { page := 1, results := [movieA, movieNoDate], total_pages := 1 }

/-- Fixture: a Gateway returning the mixed listing on every call. -/
def gwC10 : Gateway := fun _ _ => Except.ok dataC10

theorem listStarts_self_append (p t : List Char) : listStarts p (p ++ t) = true := by
  induction p with
  | nil => rfl
  | cons c cs ih => simp [listStarts, ih]

theorem replaceFirst_self_append (p t : List Char) : replaceFirst (p ++ t) p = t := by
  cases p with
  | nil =>
    cases t with
    | nil => rfl
    | cons c cs => simp [replaceFirst, listStarts]
  | cons c cs =>
    show replaceFirst (c :: (cs ++ t)) (c :: cs) = t
    rw [replaceFirst]
    rw [show (c :: (cs ++ t)) = ((c :: cs) ++ t) from rfl]
    rw [listStarts_self_append]
    simp

theorem data_append (a b : String) : (a ++ b).data = a.data ++ b.data := by
  cases a; cases b; rfl

/-- Stripping is lossless on uris the listing handler constructs: removing
the first occurrence of the scheme from `tmdb:///movie/<id>` yields `<id>`. -/
theorem extractMovieId_round (s : String) : extractMovieId ("tmdb:///movie/" ++ s) = s := by
  unfold extractMovieId
  rw [data_append, replaceFirst_self_append]

theorem mapE_ok_of_all {α β : Type} (f : α → Except String β) (g : α → β) (l : List α)
    (h : ∀ x ∈ l, f x = Except.ok (g x)) : mapE f l = Except.ok (l.map g) := by
  induction l with
  | nil => rfl
  | cons a l ih =>
    have ha := h a (List.mem_cons_self a l)
    have hl := ih (fun x hx => h x (List.mem_cons_of_mem a hx))
    simp [mapE, ha, hl]

theorem mapE_error_of_mem {α β : Type} (f : α → Except String β) (l : List α) (x : α) (e : String)
    (hx : x ∈ l) (hfx : f x = Except.error e) : ∃ e2, mapE f l = Except.error e2 := by
  induction l with
  | nil => cases hx
  | cons a l ih =>
    cases hx with
    | head => exact ⟨e, by simp [mapE, hfx]⟩
    | tail _ hx2 =>
      cases hfa : f a with
      | error e3 => exact ⟨e3, by simp [mapE, hfa]⟩
      | ok y =>
        obtain ⟨e2, h2⟩ := ih hx2
        exact ⟨e2, by simp [mapE, hfa, h2]⟩

theorem mapE_ok_mem {α β : Type} (f : α → Except String β) (l : List α) (ys : List β)
    (h : mapE f l = Except.ok ys) (x : α) (hx : x ∈ l) :
    ∃ y, f x = Except.ok y ∧ y ∈ ys := by
  induction l generalizing ys with
  | nil => cases hx
  | cons a l ih =>
    cases hfa : f a with
    | error e => simp [mapE, hfa] at h
    | ok y0 =>
      cases hml : mapE f l with
      | error e => simp [mapE, hfa, hml] at h
      | ok ys0 =>
        simp [mapE, hfa, hml] at h
        cases hx with
        | head => exact ⟨y0, hfa, by rw [← h]; exact List.mem_cons_self _ _⟩
        | tail _ hx2 =>
          obtain ⟨y, hy1, hy2⟩ := ih ys0 hml hx2
          exact ⟨y, hy1, by rw [← h]; exact List.mem_cons_of_mem _ hy2⟩

/-- On a present release date, the optional-chaining rendering agrees with
the year extraction the spec describes. -/
theorem renderOptYear_of_isSome (o : Option String) (h : o.isSome) :
    renderOptYear o = jsSplitHead (o.getD "") := by
  cases o with
  | none => simp at h
  | some d => rfl

/-- Claim C1: any failure inside the call-tool handler body — a Gateway
failure or the unknown-tool throw — is caught at the handler boundary and
converted to a normally-returned `ToolResponse` whose `isError` is `true`
and whose single text content block is "Error: " followed by the failure
message.  `callTool` returns a plain `ToolResponse` (never an `Except`), so
no failure can propagate out as a thrown error. -/
theorem C1_tool_failures_isolated (name : String) (args : ToolArgs) (gw : Gateway) (e : String)
    (h : callToolBody name args gw = Except.error e) :
    callTool name args gw
      = { content := [{ type := "text", text := "Error: " ++ e }], isError := true }
    ∧ ∃ rest, "Error: " ++ e = "Error: " ++ rest := by
  refine ⟨?_, e, rfl⟩
  simp [callTool, h]

/-- Witness for C1: a simulated Gateway failure on a search_movies call
yields the isError envelope with the "Error: " text. -/
theorem C1_tool_failures_isolated_witness :
    callTool "search_movies" noArgs gwFail
      = { content := [{ type := "text",
                        text := "Error: " ++ "TMDB API error: Service Unavailable" }],
          isError := true }
    ∧ ∃ rest, "Error: " ++ "TMDB API error: Service Unavailable" = "Error: " ++ rest :=
  C1_tool_failures_isolated "search_movies" noArgs gwFail "TMDB API error: Service Unavailable" rfl

/-- Claim C2: in a list-resources response built from an upstream page,
`nextCursor` is present iff the upstream-reported current page is strictly
below the upstream-reported page count, and when present it is the decimal
rendering of `page + 1`. -/
theorem C2_next_cursor_invariant (cursor : Option String) (gw : Gateway)
    (data : TMDBResponse) (res : ListResult)
    (hgw : gw "/movie/popular" [("page", jsOr cursor "1")] = Except.ok data)
    (hres : listResources cursor gw = Except.ok res) :
    (res.nextCursor.isSome ↔ data.page < data.total_pages)
    ∧ (data.page < data.total_pages → res.nextCursor = some (Nat.repr (data.page + 1))) := by
  cases hml : mapE listItem data.results with
  | error e =>
    rw [show listResources cursor gw = Except.error e by simp [listResources, hgw, hml]] at hres
    cases hres
  | ok rs =>
    have hback : listResources cursor gw
        = Except.ok ⟨rs, if data.page < data.total_pages
            then some (Nat.repr (data.page + 1)) else none⟩ := by
      simp [listResources, hgw, hml]
    rw [hback] at hres
    injection hres with h
    subst h
    by_cases hp : data.page < data.total_pages
    · simp [hp]
    · simp [hp]

/-- Witness for C2: on page 1 of 3 the listing carries `nextCursor = "2"`. -/
theorem C2_next_cursor_invariant_witness :
    ((⟨[], some "2"⟩ : ListResult).nextCursor.isSome ↔ dataC2.page < dataC2.total_pages)
    ∧ (dataC2.page < dataC2.total_pages
        → (⟨[], some "2"⟩ : ListResult).nextCursor = some (Nat.repr (dataC2.page + 1))) :=
  C2_next_cursor_invariant none gwC2 dataC2 ⟨[], some "2"⟩ rfl rfl

/-- Claim C3 (defect evaluation): the read-resource handler does not validate
the uri scheme.  On the uri "12345", which does not start with
`tmdb:///movie/`, stripping is a no-op, the raw uri is forwarded upstream as
a movie id, and the handler succeeds — it does not fail with any
InvalidUri-style error as the spec requires. -/
theorem C3_uri_not_validated :
    extractMovieId "12345" = "12345"
    ∧ readResource "12345" gwC3
        = Except.ok { contents := [{ uri := "12345", mimeType := "application/json",
                                     text := movieInfo detC3 }] } :=
  ⟨rfl, rfl⟩

/-- Claim C4: the synthetic uri of every descriptor produced by
list_resources round-trips losslessly (prefix stripping recovers the id),
and reading that uri returns a document whose title and releaseDate equal
the upstream detail record for the same id. -/
theorem C4_uri_round_trip (cursor : Option String) (gwL : Gateway) (gwD : DetailGateway)
    (data : TMDBResponse) (m : Movie) (d : MovieDetails) (res : ListResult)
    (hgw : gwL "/movie/popular" [("page", jsOr cursor "1")] = Except.ok data)
    (hres : listResources cursor gwL = Except.ok res)
    (hm : m ∈ data.results)
    (hd : gwD ("/movie/" ++ Nat.repr m.id) [("append_to_response", "credits,reviews")]
            = Except.ok d)
    (ht : d.title = m.title) (hr : d.release_date = m.release_date) :
    extractMovieId ("tmdb:///movie/" ++ Nat.repr m.id) = Nat.repr m.id
    ∧ (∃ nm, ({ uri := "tmdb:///movie/" ++ Nat.repr m.id, mimeType := "application/json",
                name := nm } : Resource) ∈ res.resources)
    ∧ (∃ info, readResource ("tmdb:///movie/" ++ Nat.repr m.id) gwD
          = Except.ok { contents := [{ uri := "tmdb:///movie/" ++ Nat.repr m.id,
                                       mimeType := "application/json", text := info }] }
        ∧ info.title = m.title ∧ info.releaseDate = m.release_date) := by
  refine ⟨extractMovieId_round (Nat.repr m.id), ?_, ?_⟩
  · cases hml : mapE listItem data.results with
    | error e =>
      rw [show listResources cursor gwL = Except.error e by simp [listResources, hgw, hml]] at hres
      cases hres
    | ok rs =>
      have hback : listResources cursor gwL
          = Except.ok ⟨rs, if data.page < data.total_pages
              then some (Nat.repr (data.page + 1)) else none⟩ := by
        simp [listResources, hgw, hml]
      rw [hback] at hres
      injection hres with h
      obtain ⟨y, hy1, hy2⟩ := mapE_ok_mem listItem data.results rs hml m hm
      cases hnm : listName m with
      | error e => rw [listItem, hnm] at hy1; cases hy1
      | ok nm =>
        rw [listItem, hnm] at hy1
        injection hy1 with hy
        refine ⟨nm, ?_⟩
        rw [← h]
        simpa [← hy] using hy2
  · refine ⟨movieInfo d, ?_, ?_, ?_⟩
    · have hx : extractMovieId ("tmdb:///movie/" ++ Nat.repr m.id) = Nat.repr m.id :=
        extractMovieId_round (Nat.repr m.id)
      simp [readResource, getMovieDetails, hx, hd]
    · simpa [movieInfo] using ht
    · simpa [movieInfo] using hr

/-- Witness for C4: the one-movie popular page round-trips through
read_resource with matching title and releaseDate. -/
theorem C4_uri_round_trip_witness :
    extractMovieId ("tmdb:///movie/" ++ Nat.repr movieC4.id) = Nat.repr movieC4.id
    ∧ (∃ nm, ({ uri := "tmdb:///movie/" ++ Nat.repr movieC4.id, mimeType := "application/json",
                name := nm } : Resource) ∈ resC4.resources)
    ∧ (∃ info, readResource ("tmdb:///movie/" ++ Nat.repr movieC4.id) gwC9
          = Except.ok { contents := [{ uri := "tmdb:///movie/" ++ Nat.repr movieC4.id,
                                       mimeType := "application/json", text := info }] }
        ∧ info.title = movieC4.title ∧ info.releaseDate = movieC4.release_date) :=
  C4_uri_round_trip none gwLC4 gwC9 dataC4 movieC4 detC9 resC4 rfl rfl
    (by decide) rfl rfl rfl

/-- Claim C5 as stated is false: the /sse handler registers no keep-alive
timer at all, so a session held open for a full minute (two claimed 30s
periods, client id 0) never receives a `{type:"ping"}` event. -/
theorem C5_ping_counterexample : ¬ (SSEEvent.ping ∈ sseEmitted (sseHandler 0) 60000) := by
  decide

/-- Claim C5 (amended): for every open /sse session the server emits the
initial `{type:"connected", client: id}` event and nothing else, however
long the session stays open — the handler registers no periodic timer, so
no ping events are ever emitted (in particular none after the session
closes). -/
theorem C5_sse_events (id openMs : Nat) :
    sseEmitted (sseHandler id) openMs = [SSEEvent.connected id] := by
  simp [sseEmitted, sseHandler]

/-- Claim C6: a call_tool request whose name is none of the three known
tools falls through to the default throw, which the catch boundary converts
to the envelope `isError: true` with text "Error: Tool not found". -/
theorem C6_unknown_tool (name : String) (args : ToolArgs) (gw : Gateway)
    (h1 : name ≠ "search_movies") (h2 : name ≠ "get_recommendations")
    (h3 : name ≠ "get_trending") :
    callTool name args gw
      = { content := [{ type := "text", text := "Error: Tool not found" }], isError := true } := by
  have hb : callToolBody name args gw = Except.error "Tool not found" := by
    unfold callToolBody
    rw [if_neg h1, if_neg h2, if_neg h3]
  simp [callTool, hb]

/-- Witness for C6: the name "does_not_exist" yields the tool-not-found
error envelope. -/
theorem C6_unknown_tool_witness :
    callTool "does_not_exist" noArgs gwC2
      = { content := [{ type := "text", text := "Error: Tool not found" }], isError := true } :=
  C6_unknown_tool "does_not_exist" noArgs gwC2 (by decide) (by decide) (by decide)

/-- Claim C7: a successful search_movies call over an upstream result list
of length N returns exactly "Found N movies:" plus two newlines plus the
per-movie entries in upstream order, joined by a newline-dashes-newline
separator, each entry "<title> (<year>) - ID: <id>", the rating line and the
overview line, where <year> is the part of release_date before the first
dash. -/
theorem C7_search_movies_format (args : ToolArgs) (gw : Gateway) (data : TMDBResponse)
    (hgw : gw "/search/movie" [("query", args.query)] = Except.ok data)
    (hall : ∀ m ∈ data.results, (Movie.release_date m).isSome) :
    callTool "search_movies" args gw
      = { content := [{ type := "text",
                        text := "Found " ++ Nat.repr data.results.length ++ " movies:\n\n"
                          ++ String.intercalate "\n---\n" (data.results.map (fun m =>
                            m.title ++ " (" ++ jsSplitHead ((Movie.release_date m).getD "")
                              ++ ") - ID: " ++ Nat.repr m.id ++ "\n"
                              ++ "Rating: " ++ m.vote_average ++ "/10\n"
                              ++ "Overview: " ++ m.overview ++ "\n")) }],
          isError := false } := by
  have hmap : data.results.map fmtWithId = data.results.map (fun m =>
      m.title ++ " (" ++ jsSplitHead ((Movie.release_date m).getD "") ++ ") - ID: "
        ++ Nat.repr m.id ++ "\n"
        ++ "Rating: " ++ m.vote_average ++ "/10\n"
        ++ "Overview: " ++ m.overview ++ "\n") := by
    refine List.map_congr_left (fun m hm => ?_)
    rw [fmtWithId, renderOptYear_of_isSome (Movie.release_date m) (hall m hm)]
  simp [callTool, callToolBody, hgw, hmap]

/-- Witness for C7: the spec's fixed 2-item provider listing formats to the
exact template with the "Found 2 movies:" header. -/
theorem C7_search_movies_format_witness :
    callTool "search_movies" noArgs gwC7
      = { content := [{ type := "text",
                        text := "Found " ++ Nat.repr dataC7.results.length ++ " movies:\n\n"
                          ++ String.intercalate "\n---\n" (dataC7.results.map (fun m =>
                            m.title ++ " (" ++ jsSplitHead ((Movie.release_date m).getD "")
                              ++ ") - ID: " ++ Nat.repr m.id ++ "\n"
                              ++ "Rating: " ++ m.vote_average ++ "/10\n"
                              ++ "Overview: " ++ m.overview ++ "\n")) }],
          isError := false } :=
  C7_search_movies_format noArgs gwC7 dataC7 rfl (by decide)

/-- Claim C8: a successful get_recommendations call returns the header
"Top 5 recommendations:" followed by the first (at most) 5 upstream entries
in order, and a successful get_trending call returns the header
"Trending movies for the <timeWindow>:" followed by the first (at most) 10
upstream entries in order — both with the search_movies per-entry format
minus the ID segment. -/
theorem C8_recommendations_trending_format (args : ToolArgs) (gw : Gateway)
    (dataR dataT : TMDBResponse)
    (hgwR : gw ("/movie/" ++ args.movieId ++ "/recommendations") [] = Except.ok dataR)
    (hgwT : gw ("/trending/movie/" ++ args.timeWindow) [] = Except.ok dataT)
    (hallR : ∀ m ∈ dataR.results.take 5, (Movie.release_date m).isSome)
    (hallT : ∀ m ∈ dataT.results.take 10, (Movie.release_date m).isSome) :
    callTool "get_recommendations" args gw
      = { content := [{ type := "text",
                        text := "Top 5 recommendations:\n\n"
                          ++ String.intercalate "\n---\n" ((dataR.results.take 5).map (fun m =>
                            m.title ++ " (" ++ jsSplitHead ((Movie.release_date m).getD "")
                              ++ ")\n"
                              ++ "Rating: " ++ m.vote_average ++ "/10\n"
                              ++ "Overview: " ++ m.overview ++ "\n")) }],
          isError := false }
    ∧ callTool "get_trending" args gw
      = { content := [{ type := "text",
                        text := "Trending movies for the " ++ args.timeWindow ++ ":\n\n"
                          ++ String.intercalate "\n---\n" ((dataT.results.take 10).map (fun m =>
                            m.title ++ " (" ++ jsSplitHead ((Movie.release_date m).getD "")
                              ++ ")\n"
                              ++ "Rating: " ++ m.vote_average ++ "/10\n"
                              ++ "Overview: " ++ m.overview ++ "\n")) }],
          isError := false } := by
  constructor
  · have hmap : (dataR.results.take 5).map fmtNoId = (dataR.results.take 5).map (fun m =>
        m.title ++ " (" ++ jsSplitHead ((Movie.release_date m).getD "") ++ ")\n"
          ++ "Rating: " ++ m.vote_average ++ "/10\n"
          ++ "Overview: " ++ m.overview ++ "\n") := by
      refine List.map_congr_left (fun m hm => ?_)
      rw [fmtNoId, renderOptYear_of_isSome (Movie.release_date m) (hallR m hm)]
    simp [callTool, callToolBody, hgwR, hmap]
  · have hmap : (dataT.results.take 10).map fmtNoId = (dataT.results.take 10).map (fun m =>
        m.title ++ " (" ++ jsSplitHead ((Movie.release_date m).getD "") ++ ")\n"
          ++ "Rating: " ++ m.vote_average ++ "/10\n"
          ++ "Overview: " ++ m.overview ++ "\n") := by
      refine List.map_congr_left (fun m hm => ?_)
      rw [fmtNoId, renderOptYear_of_isSome (Movie.release_date m) (hallT m hm)]
    simp [callTool, callToolBody, hgwT, hmap]

/-- Witness for C8: over a 6-item listing, recommendations keep the first 5
entries and trending (here the same listing) keeps all 6, with the headers
of the claim. -/
theorem C8_recommendations_trending_format_witness :
    callTool "get_recommendations" argsC8 gwC8
      = { content := [{ type := "text",
                        text := "Top 5 recommendations:\n\n"
                          ++ String.intercalate "\n---\n" ((dataC8.results.take 5).map (fun m =>
                            m.title ++ " (" ++ jsSplitHead ((Movie.release_date m).getD "")
                              ++ ")\n"
                              ++ "Rating: " ++ m.vote_average ++ "/10\n"
                              ++ "Overview: " ++ m.overview ++ "\n")) }],
          isError := false }
    ∧ callTool "get_trending" argsC8 gwC8
      = { content := [{ type := "text",
                        text := "Trending movies for the " ++ argsC8.timeWindow ++ ":\n\n"
                          ++ String.intercalate "\n---\n" ((dataC8.results.take 10).map (fun m =>
                            m.title ++ " (" ++ jsSplitHead ((Movie.release_date m).getD "")
                              ++ ")\n"
                              ++ "Rating: " ++ m.vote_average ++ "/10\n"
                              ++ "Overview: " ++ m.overview ++ "\n")) }],
          isError := false } :=
  C8_recommendations_trending_format argsC8 gwC8 dataC8 dataC8 rfl rfl (by decide) (by decide)

/-- Claim C9 as stated is false of the program in one particular: it asserts
posterUrl is the image-CDN base plus poster_path whenever poster_path is
present, reserving the "No poster available" sentinel for an absent
poster_path.  But the source uses a JS truthiness ternary (src/index.ts:115),
so the present-but-empty poster_path of this detail record also yields the
sentinel, not the CDN base concatenated with the empty path. -/
theorem C9_poster_counterexample :
    detC9e.poster_path = some ""
    ∧ readResource "tmdb:///movie/77" gwC9e
        = Except.ok { contents := [{ uri := "tmdb:///movie/77",
                                     mimeType := "application/json",
                                     text := movieInfo detC9e }] }
    ∧ (movieInfo detC9e).posterUrl = "No poster available"
    ∧ ¬ (movieInfo detC9e).posterUrl = "https://image.tmdb.org/t/p/w500" ++ "" :=
  ⟨rfl, rfl, rfl, by decide⟩

/-- Claim C9 (amended): a successful read_resource response has exactly one
content item carrying the request's uri and mime type "application/json",
and its document has: passed-through title, release date, rating and
overview; genres as the comma-joined genre names; a poster url from the
fixed image-CDN base plus poster_path, or the "No poster available" sentinel
when poster_path is absent or empty (JS-falsy); the first 5 cast members
rendered "<name> as <character>"; the name of the first crew member whose
job equals exactly "Director" (absent if none); and at most the first 3
reviews reduced to author, content and rating. -/
theorem C9_read_resource_projection (uri : String) (gwd : DetailGateway) (d : MovieDetails)
    (hd : gwd ("/movie/" ++ extractMovieId uri) [("append_to_response", "credits,reviews")]
            = Except.ok d) :
    readResource uri gwd
      = Except.ok { contents := [{ uri := uri, mimeType := "application/json",
                                   text := { title := d.title,
                                             releaseDate := d.release_date,
                                             rating := d.vote_average,
                                             overview := d.overview,
                                             genres := d.genres.map (fun gs =>
                                               String.intercalate ", " (gs.map Genre.name)),
                                             posterUrl := match d.poster_path with
                                               | some p => if p = "" then "No poster available"
                                                   else "https://image.tmdb.org/t/p/w500" ++ p
                                               | none => "No poster available",
                                             cast := d.credits.map (fun c => (c.cast.take 5).map
                                               (fun actor => actor.name ++ " as " ++ actor.character)),
                                             director := d.credits.bind (fun c =>
                                               (c.crew.find? (fun person => person.job == "Director")).map
                                                 CrewMember.name),
                                             reviews := d.reviews.map (fun r =>
                                               (r.results.take 3).map (fun review =>
                                                 { author := review.author,
                                                   content := review.content,
                                                   rating := review.rating })) } }] } := by
  simp [readResource, getMovieDetails, hd, movieInfo]

/-- Witness for C9: a rich detail record (6 cast members, the Director as
the second crew entry, 4 reviews, a nonempty poster path and two genres)
projects to the claimed document. -/
theorem C9_read_resource_projection_witness :
    readResource "tmdb:///movie/42" gwC9
      = Except.ok { contents := [{ uri := "tmdb:///movie/42", mimeType := "application/json",
                                   text := { title := detC9.title,
                                             releaseDate := detC9.release_date,
                                             rating := detC9.vote_average,
                                             overview := detC9.overview,
                                             genres := detC9.genres.map (fun gs =>
                                               String.intercalate ", " (gs.map Genre.name)),
                                             posterUrl := match detC9.poster_path with
                                               | some p => if p = "" then "No poster available"
                                                   else "https://image.tmdb.org/t/p/w500" ++ p
                                               | none => "No poster available",
                                             cast := detC9.credits.map (fun c => (c.cast.take 5).map
                                               (fun actor => actor.name ++ " as " ++ actor.character)),
                                             director := detC9.credits.bind (fun c =>
                                               (c.crew.find? (fun person => person.job == "Director")).map
                                                 CrewMember.name),
                                             reviews := detC9.reviews.map (fun r =>
                                               (r.results.take 3).map (fun review =>
                                                 { author := review.author,
                                                   content := review.content,
                                                   rating := review.rating })) } }] } :=
  C9_read_resource_projection "tmdb:///movie/42" gwC9 detC9 rfl

/-- Claim C10: the list-resources name projection accesses release_date
without a guard — whenever some movie of the upstream listing lacks a
release_date the handler raises (a TypeError) instead of returning a
listing; when every movie has one, the projection is total and each name is
"<title> (<year>)".  By contrast the call_tool per-entry formatter is total:
on a missing release_date it renders the year as "undefined" instead of
failing. -/
theorem C10_list_name_unguarded (cursor : Option String) (gw : Gateway) (data : TMDBResponse)
    (hgw : gw "/movie/popular" [("page", jsOr cursor "1")] = Except.ok data) :
    ((∃ m, m ∈ data.results ∧ m.release_date = none)
        → ∃ e, listResources cursor gw = Except.error e)
    ∧ ((∀ m ∈ data.results, (Movie.release_date m).isSome) →
        ∃ res, listResources cursor gw = Except.ok res
          ∧ res.resources.map Resource.name = data.results.map (fun m =>
              m.title ++ " (" ++ jsSplitHead ((Movie.release_date m).getD "") ++ ")"))
    ∧ (∀ m : Movie, m.release_date = none →
        fmtWithId m = m.title ++ " (" ++ "undefined" ++ ") - ID: " ++ Nat.repr m.id ++ "\n"
          ++ "Rating: " ++ m.vote_average ++ "/10\n"
          ++ "Overview: " ++ m.overview ++ "\n") := by
  refine ⟨?_, ?_, ?_⟩
  · rintro ⟨m, hm, hnone⟩
    have hfm : listItem m = Except.error "Cannot read properties of undefined (reading 'split')" := by
      rw [listItem, listName, hnone]
    obtain ⟨e2, h2⟩ := mapE_error_of_mem listItem data.results m _ hm hfm
    exact ⟨e2, by simp [listResources, hgw, h2]⟩
  · intro hall
    have hok : mapE listItem data.results = Except.ok (data.results.map (fun m =>
        ({ uri := "tmdb:///movie/" ++ Nat.repr m.id, mimeType := "application/json",
           name := m.title ++ " (" ++ jsSplitHead ((Movie.release_date m).getD "") ++ ")" }
          : Resource))) := by
      refine mapE_ok_of_all listItem _ data.results (fun m hm => ?_)
      cases ho : Movie.release_date m with
      | none =>
        have hs := hall m hm
        rw [ho] at hs
        simp at hs
      | some rd => simp [listItem, listName, ho]
    refine ⟨⟨data.results.map (fun m =>
        ({ uri := "tmdb:///movie/" ++ Nat.repr m.id, mimeType := "application/json",
           name := m.title ++ " (" ++ jsSplitHead ((Movie.release_date m).getD "") ++ ")" }
          : Resource)),
      if data.page < data.total_pages then some (Nat.repr (data.page + 1)) else none⟩, ?_, ?_⟩
    · simp [listResources, hgw, hok]
    · rw [List.map_map]
      rfl
  · intro m hnone
    rw [fmtWithId, hnone]
    rfl

/-- Witness for C10: a listing containing a movie without release_date (the
hypotheses of the inner implications are exercised on this mixed fixture,
whose second movie lacks the date). -/
theorem C10_list_name_unguarded_witness :
    ((∃ m, m ∈ dataC10.results ∧ m.release_date = none)
        → ∃ e, listResources none gwC10 = Except.error e)
    ∧ ((∀ m ∈ dataC10.results, (Movie.release_date m).isSome) →
        ∃ res, listResources none gwC10 = Except.ok res
          ∧ res.resources.map Resource.name = dataC10.results.map (fun m =>
              m.title ++ " (" ++ jsSplitHead ((Movie.release_date m).getD "") ++ ")"))
    ∧ (∀ m : Movie, m.release_date = none →
        fmtWithId m = m.title ++ " (" ++ "undefined" ++ ") - ID: " ++ Nat.repr m.id ++ "\n"
          ++ "Rating: " ++ m.vote_average ++ "/10\n"
          ++ "Overview: " ++ m.overview ++ "\n") :=
  C10_list_name_unguarded none gwC10 dataC10 rfl
